import Mathlib

/-!
Shallow embedding of the core procedures of the triplet-loss recommender
notebook (`Implicit_Feedback_Recsys_with_the_triplet_loss.ipynb`):
the triplet sampler, the margin comparator loss, the identity-loss
workaround, the ranking evaluator and the release-year extractor.
Pandas tables are embedded as lists of interaction rows, numpy arrays as
lists, and real-valued similarities as rationals.
-/

/-- One row of a ratings table: (user_id, item_id, rating, timestamp),
as loaded from `ua.base` / `ua.test`. -/
structure Interaction where
  user_id : Nat
  item_id : Nat
  rating : Nat
  timestamp : Nat
deriving Repr, DecidableEq

/-- Column maximum, embedding `series.max()` for a column of nonnegative
integer ids (0 when the column is empty). -/
def colMax (xs : List Nat) : Nat := xs.foldr max 0

/-- Embeds `max(data_train['user_id'].max(), data_test['user_id'].max())`. -/
def maxUserIdOf (data_train data_test : List Interaction) : Nat :=
  max (colMax (data_train.map (·.user_id))) (colMax (data_test.map (·.user_id)))

/-- Embeds `max(data_train['item_id'].max(), data_test['item_id'].max())`. -/
def maxItemIdOf (data_train data_test : List Interaction) : Nat :=
  max (colMax (data_train.map (·.item_id))) (colMax (data_test.map (·.item_id)))

/-- Embeds `data.query("rating >= 4")`, the implicit-feedback cut producing
the positive-interaction tables `pos_data_train` / `pos_data_test`. -/
def posFilter (data : List Interaction) : List Interaction :=
  data.filter (fun r => decide (4 ≤ r.rating))

/-! ## Triplet sampler (`sample_triplets`)

The sampler draws its negatives from `numpy.random.RandomState(random_seed)`:
an external pseudo-random generator that is a deterministic function of the
seed. We model its word stream by a concrete deterministic generator (a
64-bit linear congruential stream); the claims about the sampler depend only
on the stream being a pure function of the seed and on the range reduction
performed by `randint`. -/

/-- Deterministic pseudo-random 64-bit word stream seeded by `seed`,
modelling the stream of draws of `numpy.random.RandomState(seed)`. -/
def rngWord (seed : Nat) : Nat → Nat
  | 0 => (seed * 6364136223846793005 + 1442695040888963407) % 2 ^ 64
  | n + 1 => (rngWord seed n * 6364136223846793005 + 1442695040888963407) % 2 ^ 64

/-- Embeds `rng.randint(low, high, size)`: `size` draws, each reduced into
`[low, high)` by range reduction of the seeded word stream. -/
def randint (seed low high size : Nat) : List Nat :=
  (List.range size).map (fun i => low + rngWord seed i % (high - low))

/-- Embeds `sample_triplets(pos_data, max_item_id, random_seed)`:
returns `[user_ids, pos_item_ids, neg_item_ids]` where the first two are the
columns of `pos_data` and the negatives are
`rng.randint(low=1, high=max_item_id + 1, size=len(user_ids))`. -/
def sample_triplets (pos_data : List Interaction) (max_item_id : Nat)
    (random_seed : Nat) : List Nat × List Nat × List Nat :=
  let user_ids := pos_data.map (·.user_id)
  let pos_item_ids := pos_data.map (·.item_id)
  let neg_item_ids := randint random_seed 1 (max_item_id + 1) user_ids.length
  (user_ids, pos_item_ids, neg_item_ids)

/-! ## Losses -/

/-- Mean of a list of rationals, embedding `tf.reduce_mean` on a vector. -/
def reduceMean (xs : List ℚ) : ℚ := xs.sum / xs.length

/-- Embeds `identity_loss(y_true, y_pred) = tf.reduce_mean(y_pred + 0 * y_true)`
elementwise on same-shape vectors. -/
def identity_loss (y_true y_pred : List ℚ) : ℚ :=
  reduceMean (List.zipWith (fun p t => p + 0 * t) y_pred y_true)

/-- Embeds `margin_comparator_loss(inputs, margin)`:
`tf.maximum(negative_pair_sim - positive_pair_sim + margin, 0)`.
The notebook's call site uses the default `margin=1.`. -/
def margin_comparator_loss (positive_pair_sim negative_pair_sim : ℚ)
    (margin : ℚ) : ℚ :=
  max (negative_pair_sim - positive_pair_sim + margin) 0

/-! ## Claims about the sampler and the losses -/

/-- C1: for every positive-interaction table, calling `sample_triplets` twice
with the same seed and the same table yields identical outputs, in particular
identical negative-item-id sequences. -/
theorem sample_triplets_deterministic (pos_data pos_data' : List Interaction)
    (max_item_id : Nat) (s s' : Nat) (hd : pos_data = pos_data') (hs : s = s') :
    sample_triplets pos_data max_item_id s = sample_triplets pos_data' max_item_id s' ∧
      (sample_triplets pos_data max_item_id s).2.2 =
        (sample_triplets pos_data' max_item_id s').2.2 := by
  subst hd hs
  exact ⟨rfl, rfl⟩

/-- Witness for C1: two calls with seed 5 on a concrete table agree. -/
theorem sample_triplets_deterministic_witness :
    sample_triplets [⟨1, 2, 4, 0⟩] 3 5 = sample_triplets [⟨1, 2, 4, 0⟩] 3 5 ∧
      (sample_triplets [⟨1, 2, 4, 0⟩] 3 5).2.2 =
        (sample_triplets [⟨1, 2, 4, 0⟩] 3 5).2.2 :=
  sample_triplets_deterministic [⟨1, 2, 4, 0⟩] [⟨1, 2, 4, 0⟩] 3 5 5 rfl rfl

/-- C2: `sample_triplets` returns three parallel sequences, each of the
table's length; the first is the user-id column and the second the item-id
column, copied in order. -/
theorem sample_triplets_shape (pos_data : List Interaction)
    (max_item_id random_seed : Nat) :
    (sample_triplets pos_data max_item_id random_seed).1 =
        pos_data.map (·.user_id) ∧
      (sample_triplets pos_data max_item_id random_seed).2.1 =
        pos_data.map (·.item_id) ∧
      (sample_triplets pos_data max_item_id random_seed).1.length =
        pos_data.length ∧
      (sample_triplets pos_data max_item_id random_seed).2.1.length =
        pos_data.length ∧
      (sample_triplets pos_data max_item_id random_seed).2.2.length =
        pos_data.length := by
  refine ⟨rfl, rfl, by simp [sample_triplets], by simp [sample_triplets], ?_⟩
  simp [sample_triplets, randint]

/-- C3: when `1 ≤ max_item_id`, every sampled negative item id lies in
`[1, max_item_id]`. -/
theorem sample_triplets_neg_range (pos_data : List Interaction)
    (max_item_id random_seed : Nat) (hmax : 1 ≤ max_item_id) (x : Nat)
    (hx : x ∈ (sample_triplets pos_data max_item_id random_seed).2.2) :
    1 ≤ x ∧ x ≤ max_item_id := by
  simp only [sample_triplets, randint, List.mem_map, List.mem_range] at hx
  obtain ⟨i, -, rfl⟩ := hx
  have hlt : rngWord random_seed i % (max_item_id + 1 - 1) < max_item_id := by
    have : max_item_id + 1 - 1 = max_item_id := by omega
    rw [this]
    exact Nat.mod_lt _ (by omega)
  omega

/-- Witness for C3: the single negative sampled for a one-row table with
`max_item_id = 3`, seed 0, lies in `[1, 3]`. -/
theorem sample_triplets_neg_range_witness :
    1 ≤ 1 + rngWord 0 0 % 3 ∧ 1 + rngWord 0 0 % 3 ≤ 3 :=
  sample_triplets_neg_range [⟨1, 2, 4, 0⟩] 3 0 (by omega)
    (1 + rngWord 0 0 % 3)
    (by simp [sample_triplets, randint, List.range_succ])

/-- Equation lemma: the first output of `sample_triplets` is the user-id
column of the table. -/
theorem sample_triplets_fst_eq (pos_data : List Interaction)
    (max_item_id random_seed : Nat) :
    (sample_triplets pos_data max_item_id random_seed).1 =
      pos_data.map (·.user_id) := rfl

/-- Equation lemma: the second output of `sample_triplets` is the item-id
column of the table. -/
theorem sample_triplets_snd_fst_eq (pos_data : List Interaction)
    (max_item_id random_seed : Nat) :
    (sample_triplets pos_data max_item_id random_seed).2.1 =
      pos_data.map (·.item_id) := rfl

/-- C10: the anchor-user-id and positive-item-id sequences returned by
`sample_triplets` do not depend on the seed; only the negative-item-id
sequence does. -/
theorem sample_triplets_seed_only_negatives (pos_data : List Interaction)
    (max_item_id s1 s2 : Nat) :
    (sample_triplets pos_data max_item_id s1).1 =
        (sample_triplets pos_data max_item_id s2).1 ∧
      (sample_triplets pos_data max_item_id s1).2.1 =
        (sample_triplets pos_data max_item_id s2).2.1 := by
  rw [sample_triplets_fst_eq, sample_triplets_fst_eq,
    sample_triplets_snd_fst_eq, sample_triplets_snd_fst_eq]
  exact ⟨rfl, rfl⟩

/-- C4: the margin comparator loss equals `max(n - p + margin, 0)` (with the
notebook's default margin 1), is always nonnegative, and vanishes exactly
when `n + margin ≤ p`. -/
theorem margin_comparator_loss_spec (p n margin : ℚ) :
    margin_comparator_loss p n margin = max (n - p + margin) 0 ∧
      margin_comparator_loss p n 1 = max (n - p + 1) 0 ∧
      0 ≤ margin_comparator_loss p n margin ∧
      (margin_comparator_loss p n margin = 0 ↔ n + margin ≤ p) := by
  refine ⟨rfl, rfl, le_max_right _ _, ?_⟩
  rw [margin_comparator_loss, max_eq_right_iff]
  constructor <;> intro h <;> linarith

/-- Adding `0 * t` elementwise to a vector of matching shape is the
identity, the arithmetic heart of the identity-loss workaround. -/
theorem zipWith_add_zero_mul (xs ys : List ℚ) (h : ys.length = xs.length) :
    List.zipWith (fun p t => p + 0 * t) xs ys = xs := by
  induction xs generalizing ys with
  | nil => simp
  | cons a as ih =>
    cases ys with
    | nil => simp at h
    | cons b bs =>
      show (a + 0 * b) :: List.zipWith (fun p t => p + 0 * t) as bs = a :: as
      rw [ih bs (by simpa using h)]
      norm_num

/-- C9: `identity_loss` ignores its dummy target: for any two targets of the
predicted vector's shape it returns `mean(y_pred)`. -/
theorem identity_loss_ignores_target (y_pred y_true1 y_true2 : List ℚ)
    (h1 : y_true1.length = y_pred.length) (h2 : y_true2.length = y_pred.length) :
    identity_loss y_true1 y_pred = reduceMean y_pred ∧
      identity_loss y_true2 y_pred = reduceMean y_pred := by
  rw [identity_loss, identity_loss, zipWith_add_zero_mul _ _ h1,
    zipWith_add_zero_mul _ _ h2]
  exact ⟨rfl, rfl⟩

/-- Witness for C9: two different dummy targets give the same loss on a
concrete prediction vector. -/
theorem identity_loss_ignores_target_witness :
    identity_loss [5, 7] [1, 3] = reduceMean [1, 3] ∧
      identity_loss [0, 0] [1, 3] = reduceMean [1, 3] :=
  identity_loss_ignores_target [1, 3] [5, 7] [0, 0] (by decide) (by decide)

/-! ## Ranking evaluator (`average_roc_auc`)

The evaluator is parametrised by a scoring function `score u i`, the
embedding of `match_model.predict` on a `(user, item)` batch (the trained
similarity model is an external framework collaborator). `roc_auc_score` is
sklearn's metric, an external collaborator modelled by its defining
statistic: the tie-corrected Mann-Whitney probability that a positive
candidate outranks a negative one. -/

/-- Embeds `data[data['user_id'] == user_id]['item_id'].values`. -/
def userItems (data : List Interaction) (u : Nat) : List Nat :=
  (data.filter (fun r => r.user_id == u)).map (·.item_id)

/-- Embeds the candidate-set computation inside `average_roc_auc`:
`np.setdiff1d(np.arange(1, max_item_id + 1), pos_item_train['item_id'].values)`
(`np.arange` is already sorted and duplicate-free, so `setdiff1d` is a
filter), with `max_item_id` recomputed from the two tables passed to the
evaluator. -/
def itemsToRank (data_train data_test : List Interaction) (u : Nat) : List Nat :=
  (List.range' 1 (maxItemIdOf data_train data_test)).filter
    (fun i => !(userItems data_train u).contains i)

/-- Embeds `expected = np.in1d(items_to_rank, pos_item_test['item_id'].values)`. -/
def expectedLabels (data_train data_test : List Interaction) (u : Nat) : List Bool :=
  (itemsToRank data_train data_test u).map
    (fun i => (userItems data_test u).contains i)

/-- Model of sklearn's `roc_auc_score(labels, scores)`: the mean over
(positive, negative) pairs of the indicator that the positive scores higher,
counting ties one half. -/
def rocAucScore (labels : List Bool) (scores : List ℚ) : ℚ :=
  let pairs := labels.zip scores
  let pos := (pairs.filter (fun x => x.1)).map (·.2)
  let neg := (pairs.filter (fun x => !x.1)).map (·.2)
  ((pos.map (fun p => (neg.map (fun n =>
      if n < p then (1 : ℚ) else if n = p then 1 / 2 else 0)).sum)).sum) /
    ((pos.length : ℚ) * (neg.length : ℚ))

/-- The per-user AUC appended by the loop body of `average_roc_auc`:
`roc_auc_score(expected, match_model.predict([repeated_user_id, items_to_rank]))`. -/
def userAuc (score : Nat → Nat → ℚ) (data_train data_test : List Interaction)
    (u : Nat) : ℚ :=
  rocAucScore (expectedLabels data_train data_test u)
    ((itemsToRank data_train data_test u).map (score u))

/-- Embeds the loop guard `np.sum(expected) >= 1`: user `u` contributes an
AUC only if at least one candidate is a positive test item. -/
def userEligible (data_train data_test : List Interaction) (u : Nat) : Bool :=
  decide (1 ≤ (expectedLabels data_train data_test u).count true)

/-- Embeds `average_roc_auc(match_model, data_train, data_test)`: the loop
over `user_id in range(1, max_user_id + 1)` appending guarded per-user AUC
values, then `sum(user_auc_scores) / len(user_auc_scores)`; the Python
division raises `ZeroDivisionError` on an empty score list, embedded as
`none`. -/
def averageRocAuc (score : Nat → Nat → ℚ)
    (data_train data_test : List Interaction) : Option ℚ :=
  let user_auc_scores :=
    (List.range' 1 (maxUserIdOf data_train data_test)).filterMap (fun u =>
      if userEligible data_train data_test u then
        some (userAuc score data_train data_test u)
      else none)
  if user_auc_scores.length = 0 then none
  else some (user_auc_scores.sum / (user_auc_scores.length : ℚ))

/-- The users of `range(1, max_user_id + 1)` that pass the eligibility
guard, in loop order. -/
def eligibleUsers (data_train data_test : List Interaction) : List Nat :=
  (List.range' 1 (maxUserIdOf data_train data_test)).filter
    (fun u => userEligible data_train data_test u)

/-- A filterMap whose function is a guarded `some` is a filter followed by
a map. -/
theorem filterMap_if_eq_map_filter {α β : Type} (p : α → Bool) (f : α → β)
    (l : List α) :
    l.filterMap (fun a => if p a then some (f a) else none) =
      (l.filter p).map f := by
  induction l with
  | nil => rfl
  | cons a l ih =>
    by_cases h : p a <;> simp [List.filterMap_cons, List.filter_cons, h, ih]

/-- The score list accumulated by the evaluator's loop is the per-user AUC
mapped over the eligible users. -/
theorem auc_scores_eq (score : Nat → Nat → ℚ)
    (data_train data_test : List Interaction) :
    (List.range' 1 (maxUserIdOf data_train data_test)).filterMap (fun u =>
        if userEligible data_train data_test u then
          some (userAuc score data_train data_test u)
        else none) =
      (eligibleUsers data_train data_test).map
        (userAuc score data_train data_test) := by
  rw [eligibleUsers, filterMap_if_eq_map_filter]

/-- C5: the evaluator's result is the arithmetic mean of per-user AUC over
the non-skipped (eligible) users only; a user with no positive test
candidate contributes neither an AUC value nor to the denominator. -/
theorem averageRocAuc_mean_over_eligible (score : Nat → Nat → ℚ)
    (data_train data_test : List Interaction)
    (h : eligibleUsers data_train data_test ≠ []) :
    averageRocAuc score data_train data_test =
      some (((eligibleUsers data_train data_test).map
          (userAuc score data_train data_test)).sum /
        ((eligibleUsers data_train data_test).length : ℚ)) := by
  simp only [averageRocAuc]
  rw [auc_scores_eq]
  have hne : ((eligibleUsers data_train data_test).map
      (userAuc score data_train data_test)).length ≠ 0 := by
    simpa [List.length_map, List.length_eq_zero] using h
  rw [if_neg hne, List.length_map]

/-- The claim's concrete scenario: user 1 with training positive item 10 and
test positive item 20; user 2 with training positive item 5 and no test
positives. -/
def trainEx : List Interaction := [⟨1, 10, 4, 0⟩, ⟨2, 5, 4, 0⟩]

/-- Test table of the concrete scenario: only user 1 has a test positive. -/
def testEx : List Interaction := [⟨1, 20, 4, 0⟩]

/-- Witness for C5: on the claim's two-user scenario only user 1 is
eligible, and the average is the mean over that singleton. -/
theorem averageRocAuc_mean_over_eligible_witness :
    averageRocAuc (fun _ _ => 0) trainEx testEx =
        some (((eligibleUsers trainEx testEx).map
            (userAuc (fun _ _ => 0) trainEx testEx)).sum /
          ((eligibleUsers trainEx testEx).length : ℚ)) ∧
      eligibleUsers trainEx testEx = [1] :=
  ⟨averageRocAuc_mean_over_eligible (fun _ _ => 0) trainEx testEx (by decide),
    by decide⟩

/-- C7: with no eligible user the evaluator yields no numeric value: the
final `sum(user_auc_scores) / len(user_auc_scores)` fails loudly on the
empty score list (a `ZeroDivisionError` in the source, `none` here) instead
of returning NaN or a number. -/
theorem averageRocAuc_no_eligible_users (score : Nat → Nat → ℚ)
    (data_train data_test : List Interaction)
    (h : eligibleUsers data_train data_test = []) :
    averageRocAuc score data_train data_test = none := by
  simp only [averageRocAuc]
  rw [auc_scores_eq, h]
  rfl

/-- Witness for C7: on empty tables no user is eligible and the evaluator
returns no value. -/
theorem averageRocAuc_no_eligible_users_witness :
    averageRocAuc (fun _ _ => 0) [] [] = none :=
  averageRocAuc_no_eligible_users (fun _ _ => 0) [] [] (by decide)

/-- Candidate item set as claim C6 words it: all item ids in
`[1, max_item_id]` where `max_item_id` is the data model's maximum item id,
computed from the full unfiltered train and test tables (cell
`max(data_train['item_id'].max(), data_test['item_id'].max())` before the
positive cut), minus the items `u` interacted positively with in training. -/
def specCandidateSet (data_train data_test : List Interaction) (u : Nat) :
    List Nat :=
  (List.range' 1 (maxItemIdOf data_train data_test)).filter
    (fun i => !(userItems (posFilter data_train) u).contains i)

/-- Full train table refuting C6: the data model's maximum item id 30 comes
from a rating-3 row, which the positive cut removes. -/
def dataTrainC6 : List Interaction := [⟨1, 10, 4, 0⟩, ⟨2, 30, 3, 0⟩]

/-- Full test table of the C6 counterexample. -/
def dataTestC6 : List Interaction := [⟨1, 20, 4, 0⟩]

/-- Counterexample to C6: at the notebook's call site the evaluator receives
the positive-filtered tables, so its candidate set for user 1 stops at item
20 (the positive tables' maximum) and differs from the claimed
`[1, 30] \ {10}` built from the data model's maximum item id 30. -/
theorem itemsToRank_ne_specCandidateSet :
    itemsToRank (posFilter dataTrainC6) (posFilter dataTestC6) 1 ≠
      specCandidateSet dataTrainC6 dataTestC6 1 := by decide

/-- C6 amended: the candidate set scored for user `u` is exactly the item
ids in `[1, m]` minus `u`'s training items, where `m` is the maximum item id
occurring in the two tables passed to the evaluator (at the notebook's call
site the positive-filtered tables), not the data model's overall maximum. -/
theorem itemsToRank_mem (data_train data_test : List Interaction) (u i : Nat) :
    i ∈ itemsToRank data_train data_test u ↔
      1 ≤ i ∧ i ≤ maxItemIdOf data_train data_test ∧
        i ∉ userItems data_train u := by
  rw [itemsToRank, List.mem_filter, List.mem_range'_1]
  simp only [Bool.not_eq_true']
  constructor
  · rintro ⟨⟨h1, h2⟩, h3⟩
    refine ⟨h1, by omega, ?_⟩
    simpa using h3
  · rintro ⟨h1, h2, h3⟩
    refine ⟨⟨h1, by omega⟩, ?_⟩
    simpa using h3

/-! ## Release-year extraction (`extract_year`)

The input is a pandas cell that is either a string or a non-string missing
value (a float `NaN`, which has no `split` attribute), embedded as
`Option String`. Python's `int(...)` on a non-numeric string raises
`ValueError`, so the extractor is embedded as `Except`. -/

/-- Splits a character list at `'-'` separators, keeping empty components,
as Python's `str.split('-')` does. -/
def splitDashAux : List Char → List Char → List (List Char)
  | [], acc => [acc.reverse]
  | c :: cs, acc =>
    if c = '-' then acc.reverse :: splitDashAux cs []
    else splitDashAux cs (c :: acc)

/-- Embeds `release_date.split('-')`. -/
def pySplitDash (s : String) : List String :=
  (splitDashAux s.data []).map (fun cs => String.mk cs)

/-- Embeds Python's `int(s)` on a string: optional surrounding whitespace,
an optional sign, then one or more digits; any other shape raises
`ValueError`, embedded as `none`. -/
def pyInt (s : String) : Option Int :=
  let cs :=
    ((s.data.dropWhile (·.isWhitespace)).reverse.dropWhile
      (·.isWhitespace)).reverse
  let signed : Int × List Char :=
    match cs with
    | '-' :: rest => (-1, rest)
    | '+' :: rest => (1, rest)
    | _ => (1, cs)
  if !signed.2.isEmpty && signed.2.all (·.isDigit) then
    some (signed.1 *
      (signed.2.foldl (fun a c => a * 10 + (c.toNat - 48)) 0 : Nat))
  else none

/-- Embeds `extract_year(release_date)`: a non-string input (no `split`
attribute) or a string that does not split on `'-'` into exactly three
components returns the sentinel 1920; otherwise `int(components[2])` is
returned, raising `ValueError` (embedded as `Except.error`) when the third
component is not an integer literal. -/
def extract_year (release_date : Option String) : Except String Int :=
  match release_date with
  | none => Except.ok 1920
  | some s =>
    let components := pySplitDash s
    if components.length = 3 then
      match pyInt (components.getD 2 "") with
      | some n => Except.ok n
      | none => Except.error "ValueError"
    else Except.ok 1920

/-- Counterexample to C8: the malformed release date `"01-Jan-abcd"` splits
into three components, so `int('abcd')` is attempted and raises `ValueError`
instead of falling back to the sentinel 1920. -/
theorem extract_year_raises_on_bad_third_component :
    extract_year (some "01-Jan-abcd") = Except.error "ValueError" := by
  rfl

/-- C8 amended: the 1920 sentinel is returned exactly for inputs that never
reach `int(...)`: non-string values, and strings that do not split on `'-'`
into exactly three components; a three-component string whose third
component is not an integer literal raises instead. -/
theorem extract_year_sentinel :
    extract_year none = Except.ok 1920 ∧
      ∀ s : String, (pySplitDash s).length ≠ 3 →
        extract_year (some s) = Except.ok 1920 := by
  refine ⟨rfl, fun s h => ?_⟩
  simp only [extract_year]
  rw [if_neg h]

/-- Witness for C8 amended: the one-component string `"1995"` and a
non-string missing value both yield the sentinel. -/
theorem extract_year_sentinel_witness :
    extract_year (some "1995") = Except.ok 1920 ∧
      extract_year none = Except.ok 1920 :=
  ⟨extract_year_sentinel.2 "1995" (by decide), extract_year_sentinel.1⟩
